import Mathlib

/-!
Verification of the deprecation-policy engine of `fastapi-deprecation`.

This development shallowly embeds the pure decision core of the library:

* `src/fastapi_deprecation/engine.py` — `DeprecationConfig`,
  `evaluate_deprecation`, `apply_headers`, `build_block_response`;
* `src/fastapi_deprecation/utils.py` — `parse_date`,
  `format_deprecation_date`;
* the control flow of the two adapters that invoke the telemetry callback
  (`dependencies.DeprecationDependency.__call__` and
  `middleware.DeprecationMiddleware.__call__`).

Instants are modelled as exact rationals counting seconds since the Unix
epoch (Python `datetime` comparisons and `timedelta.total_seconds()` are
exact at this granularity).  The uniform probability draw produced by
`random.random()` is passed explicitly as a rational `r` with `0 ≤ r < 1`
where needed; each evaluation consumes at most one draw.  Header mappings
(Python `dict` in insertion order) are association lists in insertion
order; all keys inserted by the engine are pairwise distinct, so an
association list is an exact model.
-/

/-- A UTC instant, as exact seconds since the Unix epoch. -/
abbrev Instant := ℚ

/-- Python `int(x)` applied to an exact rational: truncation toward zero.
For a reduced rational `q = num / den` (with `den > 0`) this is the
T-division of the numerator by the denominator. -/
def pyInt (q : ℚ) : ℤ :=
  Int.tdiv q.num q.den

/-- `engine.ActionType`. -/
inductive ActionType where
  | WARN
  | BLOCK
deriving DecidableEq, Repr

/-- `engine.DeprecationConfig.custom_response`: either an already-built
response value (one shared object, mutated in place on every use) or a
factory producing a fresh response per call.  Only the header state of the
response is modelled; no claim observes status or body. -/
inductive CustomResponse where
  | value (headers : List (String × String))
  | factory (headers : List (String × String))
deriving DecidableEq, Repr

/-- `engine.DeprecationConfig` (a dataclass; field defaults as in the
source). -/
structure DeprecationConfig where
  deprecation_date : Option Instant := none
  sunset_date : Option Instant := none
  brownouts : List (Instant × Instant) := []
  alternative : Option String := none
  links : List (String × String) := []
  detail : Option String := none
  custom_response : Option CustomResponse := none
  inject_cache_control : Bool := false
  cache_tag : Option String := none
  brownout_probability : ℚ := 0
  progressive_brownout : Bool := false

/-- `engine.DeprecationConfig.__post_init__`: the only validation the
constructor performs.  Returns `true` when construction succeeds and
`false` when it raises `ValueError` (`deprecation_date` later than
`sunset_date`; the Python truthiness test on a `datetime` is `isSome`). -/
def post_init_ok (c : DeprecationConfig) : Bool :=
  match c.deprecation_date, c.sunset_date with
  | some d, some s => decide (d ≤ s)
  | _, _ => true

/-- `engine.DeprecationResult`. -/
structure DeprecationResult where
  action : ActionType
  headers : List (String × String)
deriving DecidableEq, Repr

/-- `utils.format_deprecation_date` specialised to an (aware) `datetime`
argument, as called from the engine: `parse_date` returns the same
instant, `int(dt.timestamp())` truncates toward zero, and the result is
`@<integer-unix-seconds>`. -/
def format_deprecation_instant (q : Instant) : String :=
  "@" ++ toString (pyInt q)

/-- `utils.format_sunset_date` specialised to an (aware) `datetime`
argument.  The RFC 7231 calendar rendering is performed by the external
`email.utils.format_datetime`; no claim inspects this value, so it is
modelled as an injective rendering of the instant. -/
def format_sunset_instant (q : Instant) : String :=
  "httpdate:" ++ toString q

/-- The `Link` header value built in `evaluate_deprecation` (lines
122-124): one `<url>; rel="relation"` token per entry of `links`, in
insertion order, comma-joined. -/
def links_value (links : List (String × String)) : String :=
  String.intercalate ", " (links.map (fun p => "<" ++ p.2 ++ ">; rel=\"" ++ p.1 ++ "\""))

/-- Steps 1-3 of `engine.evaluate_deprecation` (lines 87-114): the final
value of the `is_sunset` flag.  `r` is the value `random.random()` would
return; at most one of the two `random.random()` call sites executes in
any run.  The source guards the brownout-window loop with
`if not is_sunset and config.brownouts:`; skipping the loop when
`is_sunset` already holds is the same as the unconditional disjunction
used here. -/
def is_blocked (config : DeprecationConfig) (now : Instant) (r : ℚ) : Bool :=
  let s₁ : Bool :=
    match config.sunset_date with
    | some s => decide (s ≤ now)
    | none => false
  let s₂ : Bool :=
    s₁ || config.brownouts.any (fun w => decide (w.1 ≤ now) && decide (now ≤ w.2))
  if s₂ then true
  else
    match config.deprecation_date with
    | none => false
    | some d =>
      if d ≤ now then
        match config.progressive_brownout, config.sunset_date with
        | true, some s =>
          let total := s - d
          let elapsed := now - d
          if 0 < total then decide (r < elapsed / total) else false
        | _, _ =>
          if 0 < config.brownout_probability then decide (r < config.brownout_probability)
          else false
      else false

/-- Step 4 of `engine.evaluate_deprecation` (lines 116-137): the headers
dictionary, in insertion order.  All keys are distinct, so the sequence of
`dict` insertions is the concatenation below. -/
def mk_headers (config : DeprecationConfig) (now : Instant) (blocked : Bool) :
    List (String × String) :=
  let should_emit_header : Bool := if config.deprecation_date.isNone then true else true
  if should_emit_header then
    [("Deprecation", format_deprecation_instant (config.deprecation_date.getD now))]
    ++ (if config.links = [] then [] else [("Link", links_value config.links)])
    ++ (match config.sunset_date with
        | none => []
        | some s =>
          ("Sunset", format_sunset_instant s) ::
          (if config.inject_cache_control && !blocked then
            (if 0 < pyInt (s - now) then
              [("Cache-Control", "max-age=" ++ toString (pyInt (s - now)))]
            else [])
          else []))
    ++ (match config.cache_tag with
        | none => []
        | some t => if t = "" then [] else [("Cache-Tag", t), ("Surrogate-Key", t)])
  else []

/-- `engine.evaluate_deprecation` with an explicit `request_time` (the
`None` default merely substitutes the wall clock) and explicit draw `r`. -/
def evaluate_deprecation (config : DeprecationConfig) (now : Instant) (r : ℚ) :
    DeprecationResult :=
  let is_sunset := is_blocked config now r
  { action := if is_sunset then ActionType.BLOCK else ActionType.WARN
    headers := mk_headers config now is_sunset }

/-- Association-list update with Python `dict.__setitem__` semantics:
replace the value at the first occurrence of the key, else append.  (The
Starlette `MutableHeaders` variant differs only in where an updated key
sits in the raw order; no claim observes order.) -/
def setH : List (String × String) → String → String → List (String × String)
  | [], k, v => [(k, v)]
  | (k₀, v₀) :: t, k, v =>
    if k₀ = k then (k, v) :: t else (k₀, v₀) :: setH t k v

/-- `engine.apply_headers` (lines 145-160): fold the result headers onto a
target header mapping; `Link` and `Cache-Control` are append-merged onto a
truthy (present and non-empty) existing value, every other key is
overwritten. -/
def apply_headers (target : List (String × String)) (headers : List (String × String)) :
    List (String × String) :=
  headers.foldl
    (fun acc kv =>
      if kv.1 = "Link" ∨ kv.1 = "Cache-Control" then
        match acc.lookup kv.1 with
        | some existing =>
          if existing = "" then setH acc kv.1 kv.2
          else setH acc kv.1 (existing ++ ", " ++ kv.2)
        | none => setH acc kv.1 kv.2
      else setH acc kv.1 kv.2)
    target

/-- `engine.build_block_response` (lines 163-190), modelled on the header
state of the produced response.  `shared` is the current header state of
the shared custom-response object when `custom_response` is a value (the
source then binds `response = config.custom_response`, the very same
object on every call, and `apply_headers` mutates it in place).  Returns
(headers of the returned response, header state of the shared object after
the call).  The `alternative` branch builds a fresh 301 response carrying
`Location`; the default branch a fresh 410 JSON response; framework-added
content headers and status/body are not modelled (no claim observes
them). -/
def build_block_response (config : DeprecationConfig) (result : DeprecationResult)
    (shared : List (String × String)) :
    List (String × String) × List (String × String) :=
  match config.custom_response with
  | some (CustomResponse.value _) =>
    let out := apply_headers shared result.headers
    (out, out)
  | some (CustomResponse.factory h) =>
    (apply_headers h result.headers, shared)
  | none =>
    match config.alternative with
    | some a => (apply_headers [("Location", a)] result.headers, shared)
    | none => (apply_headers [] result.headers, shared)

/-! ## The date normalizer (`utils.parse_date`) -/

/-- The heterogeneous input type `utils.DateInput`
(`datetime | date | str | int | float`).  A `datetime` is carried as its
UTC instant: a timezone-aware value is converted with `astimezone(utc)`
and a naive one reinterpreted as UTC, both yielding the instant the model
stores. -/
inductive DateInput where
  | dt (instant : Instant)
  | calendar (y : ℤ) (m d : ℕ)
  | num (seconds : ℚ)
  | str (s : String)

/-- Days from the civil epoch 1970-01-01 for a (valid) proleptic Gregorian
date, as computed by Python `datetime(y, m, d, tzinfo=utc).timestamp() /
86400` (the Howard Hinnant `days_from_civil` algorithm, with C truncating division
made explicit). -/
def days_from_civil (y₀ : ℤ) (m d : ℕ) : ℤ :=
  let y : ℤ := if m ≤ 2 then y₀ - 1 else y₀
  let era : ℤ := Int.tdiv (if 0 ≤ y then y else y - 399) 400
  let yoe : ℕ := (y - era * 400).toNat
  let mp : ℕ := if 2 < m then m - 3 else m + 9
  let doy : ℕ := (153 * mp + 2) / 5 + d - 1
  let doe : ℕ := yoe * 365 + yoe / 4 - yoe / 100 + doy
  era * 146097 + (doe : ℤ) - 719468

/-- Split a character list at every occurrence of `c` (separators not
kept; `n + 1` pieces for `n` separators). -/
def splitOnChar (c : Char) : List Char → List (List Char)
  | [] => [[]]
  | ch :: t =>
    match splitOnChar c t with
    | [] => [[]]
    | h :: rest => if ch = c then [] :: h :: rest else (ch :: h) :: rest

/-- Read a non-empty all-digit character list as a natural number. -/
def natOfDigits (l : List Char) : Option ℕ :=
  if l ≠ [] ∧ l.all Char.isDigit then
    some (l.foldl (fun a c => 10 * a + (c.toNat - 48)) 0)
  else none

/-- Modelled from the spec: the string branch of the Time/Date Normalizer
(§4.1), which the source delegates to the external `dateutil.parser.parse`
(its body is not part of this repository).  Per §4.1 the normalizer
accepts "an ISO-8601-ish string" and fails otherwise; this model accepts
`YYYY-MM-DD`, optionally followed by `THH:MM:SS` and an optional trailing
`Z`, a timezone-naive string being interpreted as UTC.  Any string outside
that shape — in particular one beginning with `@` — is rejected, as
`dateutil` rejects it (its tokenizer has no rule for `@`). -/
def iso_parse_date_part (l : List Char) : Option ℚ :=
  match splitOnChar (Char.ofNat 45) l with
  | [ys, ms, ds] =>
    if ys.length = 4 ∧ ms.length = 2 ∧ ds.length = 2 then
      match natOfDigits ys, natOfDigits ms, natOfDigits ds with
      | some y, some m, some d =>
        if 1 ≤ m ∧ m ≤ 12 ∧ 1 ≤ d ∧ d ≤ 31 then
          some (86400 * (days_from_civil (y : ℤ) m d : ℚ))
        else none
      | _, _, _ => none
    else none
  | _ => none

/-- Modelled from the spec: time-of-day part of the ISO-8601-ish grammar
(see `iso_parse_date_part`). -/
def iso_parse_time_part (l : List Char) : Option ℚ :=
  let body := if l.getLast? = some (Char.ofNat 90) then l.dropLast else l
  match splitOnChar (Char.ofNat 58) body with
  | [hs, ms, ss] =>
    if hs.length = 2 ∧ ms.length = 2 ∧ ss.length = 2 then
      match natOfDigits hs, natOfDigits ms, natOfDigits ss with
      | some h, some mi, some sec =>
        if h ≤ 23 ∧ mi ≤ 59 ∧ sec ≤ 59 then
          some (3600 * (h : ℚ) + 60 * mi + sec)
        else none
      | _, _, _ => none
    else none
  | _ => none

/-- Modelled from the spec: the whole string branch (see
`iso_parse_date_part`).  `none` models the `ValueError("Invalid date
string: ...")` raised by `utils.parse_date` lines 31-38. -/
def iso_parse (s : String) : Option ℚ :=
  match splitOnChar (Char.ofNat 84) s.toList with
  | [dpart] => iso_parse_date_part dpart
  | [dpart, tpart] =>
    match iso_parse_date_part dpart, iso_parse_time_part tpart with
    | some d, some t => some (d + t)
    | _, _ => none
  | _ => none

/-- `utils.parse_date` (lines 9-40): normalize a `DateInput` to a UTC
instant; `none` models a raised `ValueError`/`TypeError`. -/
def parse_date : DateInput → Option Instant
  | DateInput.dt q => some q
  | DateInput.calendar y m d => some (86400 * (days_from_civil y m d : ℚ))
  | DateInput.num q => some q
  | DateInput.str s => iso_parse s

/-- `utils.format_deprecation_date` (lines 43-50) on a general
`DateInput`: normalize, truncate to whole seconds, render as
`@<timestamp>`; `none` models the propagated parse error. -/
def format_deprecation_date (x : DateInput) : Option String :=
  (parse_date x).map (fun q => "@" ++ toString (pyInt q))

/-! ## Telemetry invocation control flow of the two adapters -/

/-- The fields of `dependencies.DeprecationDependency` that determine its
block decision (the class has no probabilistic brownout fields). -/
structure DependencyPolicy where
  deprecation_date : Option Instant := none
  sunset_date : Option Instant := none
  brownouts : List (Instant × Instant) := []
  alternative : Option String := none
  links : List (String × String) := []
  detail : Option String := none
  custom_response_present : Bool := false
  inject_cache_control : Bool := false

/-- Steps 1-2 of `DeprecationDependency.__call__` (lines 70-80) and of
`DeprecationMiddleware.__call__` (lines 53-62): the `is_sunset` flag
(sunset reached, or `now` inside some brownout window). -/
def dep_is_sunset (p : DependencyPolicy) (now : Instant) : Bool :=
  (match p.sunset_date with
   | some s => decide (s ≤ now)
   | none => false)
  || p.brownouts.any (fun w => decide (w.1 ≤ now) && decide (now ≤ w.2))

/-- Whether `DeprecationDependency.__call__` (lines 67-149) reaches the
registered telemetry callback: when `is_sunset` holds the method raises
`DeprecationSunset` or `HTTPException` (lines 82-123) before the callback
site at lines 140-149; otherwise the callback runs inside the
`should_emit_header` branch (the flag is set to `True` in both arms of
lines 128-134). -/
def dependency_telemetry_invoked (p : DependencyPolicy) (now : Instant)
    (registered : Bool) : Bool :=
  if dep_is_sunset p now then false
  else
    let should_emit_header : Bool := if p.deprecation_date.isSome then true else true
    should_emit_header && registered

/-- Whether `DeprecationMiddleware.__call__` (lines 32-163) invokes the
registered telemetry callback for a request whose path matched a policy:
in the block branch at lines 82-94, and in the warn branch at lines
153-163 guarded by `should_emit_header` (line 100 sets it to `True` either
way). -/
def middleware_telemetry_invoked (p : DependencyPolicy) (now : Instant)
    (registered : Bool) : Bool :=
  if dep_is_sunset p now then registered
  else
    let should_emit_header : Bool := if p.deprecation_date.isNone then true else true
    should_emit_header && registered

/-! ## Helper lemmas -/

/-- Association-list lookup distributes over append. -/
theorem lookup_append (l₁ l₂ : List (String × String)) (k : String) :
    (l₁ ++ l₂).lookup k =
      (match l₁.lookup k with
       | some v => some v
       | none => l₂.lookup k) := by
  induction l₁ with
  | nil => simp [List.lookup]
  | cons p t ih =>
    obtain ⟨a, b⟩ := p
    cases hbeq : (k == a) <;> simp [List.lookup, hbeq, ih]

/-- Once the sunset instant has passed, step 1 of the evaluation fixes the
block flag, whatever the remaining configuration and draw. -/
theorem evaluate_block_of_sunset_le (cfg : DeprecationConfig) (now r s : ℚ)
    (hs : cfg.sunset_date = some s) (h : s ≤ now) :
    (evaluate_deprecation cfg now r).action = ActionType.BLOCK := by
  rw [evaluate_deprecation, is_blocked]
  simp [hs, h]

/-! ## Claims -/

/-- C1: for every policy whose sunset instant is set and every `now` with
`sunsetInstant <= now`, `evaluate` returns `Block`, regardless of the
brownout windows, the static or progressive brownout settings, and the
probability draw. -/
theorem C1_sunset_always_blocks (cfg : DeprecationConfig) (now r s : ℚ)
    (hs : cfg.sunset_date = some s) (h : s ≤ now) :
    (evaluate_deprecation cfg now r).action = ActionType.BLOCK :=
  evaluate_block_of_sunset_le cfg now r s hs h

/-- Witness for C1 at a concrete policy and instant. -/
theorem C1_sunset_always_blocks_witness :
    (evaluate_deprecation
        { sunset_date := some 5, brownout_probability := 1, progressive_brownout := true,
          deprecation_date := some 1 } 6 0).action = ActionType.BLOCK :=
  C1_sunset_always_blocks
    { sunset_date := some 5, brownout_probability := 1, progressive_brownout := true,
      deprecation_date := some 1 } 6 0 5 rfl (by norm_num)

/-- C3: every evaluation result carries a `Deprecation` header — on Warn
and on Block alike, and even with no deprecation configuration at all —
whose value is the formatted deprecation instant when set, else the
formatted `now`. -/
theorem C3_deprecation_header_always (cfg : DeprecationConfig) (now r : ℚ) :
    (evaluate_deprecation cfg now r).headers.lookup "Deprecation" =
      some (format_deprecation_instant (cfg.deprecation_date.getD now)) := by
  rw [evaluate_deprecation]
  simp [mk_headers, lookup_append, List.lookup]

/-- C5: with progressive brownout enabled and a zero-length ramp window
(`sunsetInstant = deprecationInstant = t`), every evaluation at
`now >= t` returns `Block` for every draw; the division guarded by
`total_duration > 0` is never taken, so no division by zero occurs. -/
theorem C5_zero_length_ramp_blocks (cfg : DeprecationConfig) (t now r : ℚ)
    (hp : cfg.progressive_brownout = true)
    (hd : cfg.deprecation_date = some t)
    (hs : cfg.sunset_date = some t)
    (h : t ≤ now) :
    (evaluate_deprecation cfg now r).action = ActionType.BLOCK :=
  evaluate_block_of_sunset_le cfg now r t hs h

/-- Witness for C5 at a concrete policy and instant. -/
theorem C5_zero_length_ramp_blocks_witness :
    (evaluate_deprecation
        { deprecation_date := some 7, sunset_date := some 7,
          progressive_brownout := true } 7 0).action = ActionType.BLOCK :=
  C5_zero_length_ramp_blocks
    { deprecation_date := some 7, sunset_date := some 7, progressive_brownout := true }
    7 7 0 rfl rfl rfl le_rfl

/-- C6: whenever `now` lies inside some brownout window (bounds
inclusive), `evaluate` returns `Block` — also when the sunset instant is
set and still in the future. -/
theorem C6_brownout_window_blocks (cfg : DeprecationConfig) (now r : ℚ)
    (h : ∃ w ∈ cfg.brownouts, w.1 ≤ now ∧ now ≤ w.2) :
    (evaluate_deprecation cfg now r).action = ActionType.BLOCK := by
  obtain ⟨w, hw, h1, h2⟩ := h
  rw [evaluate_deprecation, is_blocked]
  have hany : cfg.brownouts.any (fun w => decide (w.1 ≤ now) && decide (now ≤ w.2)) = true := by
    rw [List.any_eq_true]
    exact ⟨w, hw, by simp [h1, h2]⟩
  simp [hany]

/-- Witness for C6: a window around `now`, sunset still ahead. -/
theorem C6_brownout_window_blocks_witness :
    (evaluate_deprecation
        { sunset_date := some 1000, brownouts := [(10, 20)] } 15 0).action =
      ActionType.BLOCK :=
  C6_brownout_window_blocks { sunset_date := some 1000, brownouts := [(10, 20)] } 15 0
    ⟨(10, 20), by simp, by norm_num, by norm_num⟩

/-- C2 (code-bug evidence): `DeprecationConfig.__post_init__` accepts both
configurations the claim — and the tests of the repository itself
(`tests/test_chaos_brownouts.py`, `test_validation_*`) — require it to
reject: a nonzero static `brownout_probability` combined with
`progressive_brownout`, and a `brownout_probability` outside `[0, 1]`.
Construction succeeds silently in both cases. -/
theorem C2_post_init_accepts_invalid_brownout_configs :
    post_init_ok { brownout_probability := 1/2, progressive_brownout := true } = true ∧
    post_init_ok { brownout_probability := 3/2 } = true :=
  ⟨rfl, rfl⟩

/-- C8 (counterexample): with a telemetry callback registered and a policy
already past its sunset, `DeprecationDependency.__call__` blocks the
request but raises before its callback site — the callback is not
invoked on this Block evaluation. -/
theorem C8_dependency_telemetry_skipped_on_block :
    dep_is_sunset { sunset_date := some 0 } 1 = true ∧
    dependency_telemetry_invoked { sunset_date := some 0 } 1 true = false := by
  exact ⟨rfl, rfl⟩

/-- C8 (amended): when a callback is registered, the middleware adapter
invokes it after every evaluation, Warn or Block alike; the dependency
adapter invokes it exactly when the evaluation does not block (its block
branch raises before the callback site). -/
theorem C8_telemetry_invocation_amended (p : DependencyPolicy) (now : Instant)
    (registered : Bool) :
    middleware_telemetry_invoked p now registered = registered ∧
    dependency_telemetry_invoked p now registered = (registered && !(dep_is_sunset p now)) := by
  rw [middleware_telemetry_invoked, dependency_telemetry_invoked]
  cases h : dep_is_sunset p now <;> simp

/-- C4 (counterexample): with progressive brownout enabled and a brownout
window that closes before the sunset instant, a fixed draw `r = 99/100`
yields `Block` at `now = 15` (inside the window) but `Warn` at the later
`now = 50` (window over, ramp probability only `1/2`): the outcome moves
from `Block` back to `Warn` as `now` increases from the deprecation
instant toward the sunset instant. -/
theorem C4_progressive_monotonic_counterexample :
    (evaluate_deprecation
        { deprecation_date := some 0, sunset_date := some 100,
          brownouts := [(10, 20)], progressive_brownout := true } 15 (99/100)).action =
      ActionType.BLOCK ∧
    (evaluate_deprecation
        { deprecation_date := some 0, sunset_date := some 100,
          brownouts := [(10, 20)], progressive_brownout := true } 50 (99/100)).action =
      ActionType.WARN := by
  constructor
  · decide
  · rw [evaluate_deprecation, is_blocked]
    norm_num [List.any_cons, List.any_nil]

/-- C4 (amended): for a policy with progressive brownout enabled (both
instants set) and no explicit brownout windows, the outcome is monotone in
`now` for a fixed draw `r`: once it is `Block`, it stays `Block` at every
later instant. -/
theorem C4_progressive_monotonic_amended (cfg : DeprecationConfig)
    (d s r now₁ now₂ : ℚ)
    (hb : cfg.brownouts = [])
    (hp : cfg.progressive_brownout = true)
    (hd : cfg.deprecation_date = some d)
    (hs : cfg.sunset_date = some s)
    (h12 : now₁ ≤ now₂)
    (h1 : (evaluate_deprecation cfg now₁ r).action = ActionType.BLOCK) :
    (evaluate_deprecation cfg now₂ r).action = ActionType.BLOCK := by
  have hblock1 : is_blocked cfg now₁ r = true := by
    cases hbv : is_blocked cfg now₁ r with
    | false => rw [evaluate_deprecation] at h1; simp [hbv] at h1
    | true => rfl
  rw [evaluate_deprecation]
  suffices hb2 : is_blocked cfg now₂ r = true by simp [hb2]
  rw [is_blocked] at hblock1 ⊢
  rw [hb, hp, hd, hs] at hblock1 ⊢
  simp only [List.any_nil, Bool.or_false] at hblock1 ⊢
  by_cases hsn2 : s ≤ now₂
  · simp [hsn2]
  · have hsn1 : ¬ s ≤ now₁ := fun hc => hsn2 (hc.trans h12)
    simp only [hsn1, hsn2, decide_False, Bool.false_eq_true, if_false] at hblock1 ⊢
    by_cases hd1 : d ≤ now₁
    · have hd2 : d ≤ now₂ := hd1.trans h12
      simp only [hd1, hd2, if_true, if_pos] at hblock1 ⊢
      by_cases ht : 0 < s - d
      · simp only [ht, if_pos, decide_eq_true_eq] at hblock1 ⊢
        have hdiv : (now₁ - d) / (s - d) ≤ (now₂ - d) / (s - d) :=
          (div_le_div_iff_of_pos_right ht).mpr (by linarith)
        exact lt_of_lt_of_le hblock1 hdiv
      · simp [ht] at hblock1
    · simp [hd1] at hblock1

/-- Witness for the amended C4 at a concrete policy: blocked at
`now₁ = 100` (sunset reached), still blocked at `now₂ = 150`. -/
theorem C4_progressive_monotonic_amended_witness :
    (evaluate_deprecation
        { deprecation_date := some 0, sunset_date := some 100,
          progressive_brownout := true } 150 (1/4)).action = ActionType.BLOCK :=
  C4_progressive_monotonic_amended
    { deprecation_date := some 0, sunset_date := some 100, progressive_brownout := true }
    0 100 (1/4) 100 150 rfl rfl rfl rfl (by norm_num) (by decide)

/-- The `Cache-Control` entry of the synthesized headers, as a function of
the block flag. -/
theorem mk_headers_lookup_cc (cfg : DeprecationConfig) (now : Instant) (blocked : Bool) :
    (mk_headers cfg now blocked).lookup "Cache-Control" =
      (match cfg.sunset_date with
       | some s =>
         if cfg.inject_cache_control && !blocked then
           (if 0 < pyInt (s - now) then
             some ("max-age=" ++ toString (pyInt (s - now)))
           else none)
         else none
       | none => none) := by
  rw [mk_headers]
  cases hsd : cfg.sunset_date <;>
    by_cases hl : cfg.links = [] <;>
    cases hct : cfg.cache_tag <;>
    (try simp [lookup_append, List.lookup, hl]) <;>
    (try (split_ifs <;> simp [lookup_append, List.lookup])) <;>
    (try (rintro a b hne (⟨ha, hb2⟩ | ⟨ha, hb2⟩) <;> subst ha <;> decide))

/-- C7: the result carries a `Cache-Control: max-age=<n>` header exactly
when `injectCacheControl` is on, a sunset instant is set, the decision is
not `Block`, and the whole-second remainder until sunset is strictly
positive; `n` is that whole-second remainder. -/
theorem C7_cache_control_iff (cfg : DeprecationConfig) (now r : ℚ) :
    (evaluate_deprecation cfg now r).headers.lookup "Cache-Control" =
      (match cfg.sunset_date with
       | some s =>
         if cfg.inject_cache_control = true ∧
            (evaluate_deprecation cfg now r).action ≠ ActionType.BLOCK ∧
            0 < pyInt (s - now)
         then some ("max-age=" ++ toString (pyInt (s - now)))
         else none
       | none => none) := by
  have h := mk_headers_lookup_cc cfg now (is_blocked cfg now r)
  cases hb : is_blocked cfg now r <;> cases hsd : cfg.sunset_date <;>
    by_cases hic : cfg.inject_cache_control <;>
    rw [hb] at h <;>
    simp [evaluate_deprecation, hb, hsd, hic] at h ⊢ <;>
    exact h

/-- `pyInt` is the identity on integer-valued rationals (Python
`int(float(n)) == n` at whole seconds). -/
theorem pyInt_intCast (n : ℤ) : pyInt ((n : ℚ)) = n := by
  rw [pyInt, Rat.num_intCast, Rat.den_intCast]
  exact Int.tdiv_one n

/-- C9 (counterexample): the round trip fails on the code.  The valid
input `1697104800` parses, formats to the Deprecation header value
`@1697104800`, but feeding that string back through the normalizer raises
(`@<unix-seconds>` is not an ISO-8601-ish string, and the string branch
rejects it), so `parseDate(formatDeprecationHeader(parseDate(x)))` yields
an error, not the original timestamp. -/
theorem C9_roundtrip_counterexample :
    parse_date (DateInput.num 1697104800) = some 1697104800 ∧
    format_deprecation_date (DateInput.num 1697104800) = some "@1697104800" ∧
    parse_date (DateInput.str "@1697104800") = none := by
  refine ⟨rfl, ?_, ?_⟩ <;> decide

/-- C9 (amended): for every valid date input `x`, the Deprecation header
is `@<ts>` for the truncated whole-second timestamp `ts` of
`parseDate(x)`, and feeding `ts` itself (the header value with the `@`
stripped) back through the numeric branch of the normalizer round-trips to the
same integer-second timestamp. -/
theorem C9_roundtrip_amended (x : DateInput) (q : Instant)
    (h : parse_date x = some q) :
    ∃ ts : ℤ, format_deprecation_date x = some ("@" ++ toString ts) ∧
      parse_date (DateInput.num ((ts : ℚ))) = some ((ts : ℚ)) ∧
      pyInt ((ts : ℚ)) = ts := by
  refine ⟨pyInt q, ?_, rfl, pyInt_intCast _⟩
  rw [format_deprecation_date, h]
  rfl

/-- Witness for the amended C9 at the concrete input `3`. -/
theorem C9_roundtrip_amended_witness :
    ∃ ts : ℤ, format_deprecation_date (DateInput.num 3) = some ("@" ++ toString ts) ∧
      parse_date (DateInput.num ((ts : ℚ))) = some ((ts : ℚ)) ∧
      pyInt ((ts : ℚ)) = ts :=
  C9_roundtrip_amended (DateInput.num 3) 3 rfl

/-- C10: with `customBlockResponse` a response value, every
`build_block_response` call returns the one shared object (the returned
header state equals the post-call state of the shared object) and mutates it in
place; a second call with a decision whose headers include a non-empty
`Link` append-merges the value onto itself, so the operation is not
idempotent and its effect is not confined to a fresh return value. -/
theorem C10_custom_block_response_shared_mutation (v : String) (hv : v ≠ "") :
    build_block_response { custom_response := some (CustomResponse.value []) }
        { action := ActionType.BLOCK, headers := [("Link", v)] } [] =
      ([("Link", v)], [("Link", v)]) ∧
    build_block_response { custom_response := some (CustomResponse.value []) }
        { action := ActionType.BLOCK, headers := [("Link", v)] } [("Link", v)] =
      ([("Link", v ++ ", " ++ v)], [("Link", v ++ ", " ++ v)]) ∧
    v ++ ", " ++ v ≠ v := by
  refine ⟨by simp [build_block_response, apply_headers, setH, List.lookup], ?_, ?_⟩
  · simp [build_block_response, apply_headers, setH, List.lookup, hv]
  · intro hEq
    have hlen := congrArg String.length hEq
    rw [String.length_append, String.length_append] at hlen
    have h2 : (", " : String).length = 2 := rfl
    omega

/-- Witness for C10 at the concrete Link value `"L"`. -/
theorem C10_custom_block_response_shared_mutation_witness :
    ("L" : String) ≠ "" ∧
    (build_block_response { custom_response := some (CustomResponse.value []) }
        { action := ActionType.BLOCK, headers := [("Link", "L")] } [] =
      ([("Link", "L")], [("Link", "L")]) ∧
    build_block_response { custom_response := some (CustomResponse.value []) }
        { action := ActionType.BLOCK, headers := [("Link", "L")] } [("Link", "L")] =
      ([("Link", "L" ++ ", " ++ "L")], [("Link", "L" ++ ", " ++ "L")]) ∧
    "L" ++ ", " ++ "L" ≠ "L") :=
  ⟨by decide, C10_custom_block_response_shared_mutation "L" (by decide)⟩
